import Mathlib

/-!
Shallow embedding of the Ensino-Superior dashboard (`app.py`): the
loader/normalizer `carregar_dados` and the filter/aggregate stage, together
with proofs of the claims of the specification about them.

A table cell is an integer, a string, or the missing value (pandas `NaN`).
-/

inductive Cell where
  | int : Int → Cell
  | str : String → Cell
  | na  : Cell
deriving DecidableEq

/-- Models `pd.to_numeric` with coercing errors on a single cell: integers
pass through, numeric strings parse, everything else becomes `NaN`. -/
def toNumeric : Cell → Cell
  | Cell.int n => Cell.int n
  | Cell.str s => match s.toInt? with
      | some n => Cell.int n
      | none => Cell.na
  | Cell.na => Cell.na

/-- Models `Series.fillna(d)` on a single cell. -/
def fillna (c : Cell) (d : Cell) : Cell :=
  match c with
  | Cell.na => d
  | c => c

/-- Models `Series.map(dict)` on a single cell: a dict keyed by integers;
any value with no entry (including strings and `NaN`) becomes `NaN`. -/
def mapCode (m : List (Int × String)) : Cell → Cell
  | Cell.int n =>
      match m.lookup n with
      | some l => Cell.str l
      | none => Cell.na
  | _ => Cell.na

/-- A row of the raw table: column name ↦ cell.  A name absent from the
association list denotes a `NaN` cell of that column. -/
abbrev RowA := List (String × Cell)

/-- Read column `k` of row `r` (`NaN` when the key is absent). -/
def getCol (r : RowA) (k : String) : Cell :=
  (List.lookup k r).getD Cell.na

/-- Assign column `k` of row `r` to `v` (pandas `df[k] = ...` at row level). -/
def setCol (r : RowA) (k : String) (v : Cell) : RowA :=
  (k, v) :: r

/-- A dataframe: a header and its rows. -/
structure DF where
  header : List String
  rows : List RowA
deriving DecidableEq

def emptyDF : DF := { header := [], rows := [] }

/-- The fixed list of required source column names (`required_original_cols`
in `carregar_dados`). -/
def required_original_cols : List String :=
  ["NU_ANO_CENSO", "CO_MUNICIPIO_IES", "nome_municipio", "IN_CAPITAL_IES",
   "TP_ORGANIZACAO_ACADEMICA", "TP_REDE", "TP_CATEGORIA_ADMINISTRATIVA",
   "NO_IES", "SG_IES", "QT_DOC_TOTAL", "QT_TEC_TOTAL", "NO_MANTENEDORA",
   "QT_DOC_EX_SEM_GRAD", "QT_DOC_EX_GRAD", "QT_DOC_EX_ESP",
   "QT_DOC_EX_MEST", "QT_DOC_EX_DOUT",
   "QT_LIVRO_ELETRONICO",
   "QT_DOC_EX_FEMI",
   "QT_DOC_EX_MASC"]

/-- The column rename mapping passed to `df.rename`. -/
def renamePairs : List (String × String) :=
  [("NU_ANO_CENSO", "Ano do Censo"),
   ("nome_municipio", "Município"),
   ("IN_CAPITAL_IES", "É Capital?"),
   ("TP_ORGANIZACAO_ACADEMICA", "Organização Acadêmica"),
   ("TP_REDE", "Tipo de Rede"),
   ("TP_CATEGORIA_ADMINISTRATIVA", "Categoria Administrativa"),
   ("NO_MANTENEDORA", "Mantenedora"),
   ("NO_IES", "Nome da IES"),
   ("SG_IES", "Sigla da IES"),
   ("QT_DOC_TOTAL", "Total de Docentes"),
   ("QT_TEC_TOTAL", "Total de Técnicos"),
   ("QT_DOC_EX_SEM_GRAD", "Docentes Sem Graduação"),
   ("QT_DOC_EX_GRAD", "Docentes com Graduação"),
   ("QT_DOC_EX_ESP", "Docentes com Especialização"),
   ("QT_DOC_EX_MEST", "Docentes com Mestrado"),
   ("QT_DOC_EX_DOUT", "Docentes com Doutorado"),
   ("QT_LIVRO_ELETRONICO", "Total de Livros Eletrônicos"),
   ("QT_DOC_EX_FEMI", "Docentes Feminino"),
   ("QT_DOC_EX_MASC", "Docentes Masculino")]

def renameKey (k : String) : String :=
  (renamePairs.lookup k).getD k

def renameRow (r : RowA) : RowA :=
  r.map (fun p => (renameKey p.1, p.2))

/-- The list `numeric_cols_to_fill` of `carregar_dados` (post-rename names). -/
def numeric_cols_to_fill : List String :=
  ["Total de Docentes", "Total de Técnicos",
   "Docentes Sem Graduação", "Docentes com Graduação",
   "Docentes com Especialização",
   "Docentes com Mestrado", "Docentes com Doutorado",
   "Total de Livros Eletrônicos", "Docentes Feminino", "Docentes Masculino"]

def capital_map : List (Int × String) := [(1, "Sim"), (0, "Não")]

def organizacao_map : List (Int × String) :=
  [(1, "Universidade"), (2, "Centro Universitário"),
   (3, "Faculdade"),
   (4, "Instituto Federal de Educação, Ciência e Tecnologia (IF)"),
   (5, "Centro Federal de Educação Tecnológica (CEFET)"),
   (99, "Outra")]

def rede_map : List (Int × String) := [(1, "Pública"), (2, "Privada")]

def categoria_map : List (Int × String) :=
  [(1, "Pública Federal"), (2, "Pública Estadual"), (3, "Pública Municipal"),
   (4, "Privada Comunitária"), (5, "Privada Confessional"),
   (6, "Privada Filantrópica"),
   (7, "Privada Sem Fins Lucrativos"), (8, "Privada Com Fins Lucrativos")]

/-- One step of the numeric-fill loop
(to-numeric coercion of the column followed by filling `NaN` with 0, guarded by
`if col in df.columns`), acting on one row. -/
def coerceStep (hdr : List String) (r : RowA) (c : String) : RowA :=
  if c ∈ hdr then setCol r c (fillna (toNumeric (getCol r c)) (Cell.int 0)) else r

/-- One categorical mapping
(mapping the column through `m` and filling `NaN` with the sentinel, guarded by
`if col in df.columns`), acting on one row. -/
def catApply (hdr : List String) (c : String) (m : List (Int × String)) (r : RowA) : RowA :=
  if c ∈ hdr then
    setCol r c (fillna (mapCode m (getCol r c)) (Cell.str "Não Definido"))
  else r

/-- The per-row normalization performed by `carregar_dados` after the
required-column check: rename, numeric coercion, categorical mappings. -/
def normalizeRow (hdr : List String) (r : RowA) : RowA :=
  let r1 := renameRow r
  let r2 := numeric_cols_to_fill.foldl (coerceStep hdr) r1
  let r3 := catApply hdr "É Capital?" capital_map r2
  let r4 := catApply hdr "Organização Acadêmica" organizacao_map r3
  let r5 := catApply hdr "Tipo de Rede" rede_map r4
  catApply hdr "Categoria Administrativa" categoria_map r5

/-- Rename + normalize the whole dataframe (column-wise pandas operations
expressed row-wise; the guards depend only on the renamed header). -/
def processDF (df : DF) : DF :=
  let hdr := df.header.map renameKey
  { header := hdr, rows := df.rows.map (normalizeRow hdr) }

/-- Possible inputs of the loader: the file is missing, reading/parsing it
raises (caught by the `except` clause), or it parses to a dataframe. -/
inductive LoadInput where
  | noFile
  | parseError (msg : String)
  | parsed (df : DF)

/-- The human-readable diagnostics `carregar_dados` can surface
(`st.error` calls), with their payloads. -/
inductive Diag where
  | fileNotFound
  | missingColumns (cols : List String)
  | unexpected (msg : String)
deriving DecidableEq

/-- The list comprehension computing `missing_cols`: the required source
names absent from the header. -/
def missing_cols (df : DF) : List String :=
  required_original_cols.filter (fun c => decide (c ∉ df.header))

/-- The loader `carregar_dados`: returns the (possibly empty) table together with the
diagnostics emitted.  Never fails: every branch returns. -/
def carregar_dados (inp : LoadInput) : DF × List Diag :=
  match inp with
  | LoadInput.noFile => (emptyDF, [Diag.fileNotFound])
  | LoadInput.parseError m => (emptyDF, [Diag.unexpected m])
  | LoadInput.parsed df =>
      let ms := missing_cols df
      if ms.isEmpty then (processDF df, []) else (emptyDF, [Diag.missingColumns ms])

/-!
## Filter/Aggregate stage

After a successful load every renamed column is present, so a normalized
row is represented by a record with one field per column the dashboard
reads.  Count columns are integers (guaranteed by the numeric coercion).
-/

structure Row where
  anoCenso : Cell
  municipio : Cell
  eCapital : Cell
  organizacaoAcademica : Cell
  tipoRede : Cell
  categoriaAdministrativa : Cell
  mantenedora : Cell
  nomeIES : Cell
  siglaIES : Cell
  totalDocentes : Int
  totalTecnicos : Int
  docSemGrad : Int
  docGrad : Int
  docEsp : Int
  docMest : Int
  docDout : Int
  totalLivros : Int
  docFem : Int
  docMasc : Int
deriving DecidableEq

/-- The sidebar selection of the user.  The year selectbox offers only actual
years (`none` when the column is unavailable); the other four offer a
"Todas"/"Todos" sentinel as their first entry. -/
structure Selecao where
  ano_sel : Option Cell
  organizacao_sel : Cell
  tipo_rede_sel : Cell
  municipio_sel : Cell
  instituicao_sel : Cell

/-- The sequential filter application building `df_filtrado`. -/
def df_filtrado (df : List Row) (s : Selecao) : List Row :=
  let d0 := df
  let d1 := match s.ano_sel with
    | some a => d0.filter (fun r => decide (r.anoCenso = a))
    | none => d0
  let d2 := if s.organizacao_sel ≠ Cell.str "Todas" then
      d1.filter (fun r => decide (r.organizacaoAcademica = s.organizacao_sel)) else d1
  let d3 := if s.tipo_rede_sel ≠ Cell.str "Todas" then
      d2.filter (fun r => decide (r.tipoRede = s.tipo_rede_sel)) else d2
  let d4 := if s.municipio_sel ≠ Cell.str "Todos" then
      d3.filter (fun r => decide (r.municipio = s.municipio_sel)) else d3
  if s.instituicao_sel ≠ Cell.str "Todas" then
    d4.filter (fun r => decide (r.nomeIES = s.instituicao_sel)) else d4

/-- The view the specification takes of the same computation: a conjunction of
optional equality predicates, one per filterable column; an absent
selection (sentinel / `none`) matches every row. -/
def selPred (s : Selecao) (r : Row) : Bool :=
  (match s.ano_sel with
    | some a => decide (r.anoCenso = a)
    | none => true)
  && (if s.organizacao_sel ≠ Cell.str "Todas" then
        decide (r.organizacaoAcademica = s.organizacao_sel) else true)
  && (if s.tipo_rede_sel ≠ Cell.str "Todas" then
        decide (r.tipoRede = s.tipo_rede_sel) else true)
  && (if s.municipio_sel ≠ Cell.str "Todos" then
        decide (r.municipio = s.municipio_sel) else true)
  && (if s.instituicao_sel ≠ Cell.str "Todas" then
        decide (r.nomeIES = s.instituicao_sel) else true)

/-- Models `Series.nunique`: number of distinct values. -/
def nunique (l : List Cell) : Nat := l.dedup.length

/-- The metric `total_ies`: distinct institution names of the filtered subset. -/
def total_ies (d : List Row) : Nat := nunique (d.map (fun r => r.nomeIES))

/-- Insertion into a list sorted ascending by the summed value. -/
def insertByVal (p : Cell × Int) : List (Cell × Int) → List (Cell × Int)
  | [] => [p]
  | q :: qs => if p.2 ≤ q.2 then p :: q :: qs else q :: insertByVal p qs

/-- Models `sort_values` ascending on (key, sum) pairs. -/
def sortByVal : List (Cell × Int) → List (Cell × Int)
  | [] => []
  | p :: ps => insertByVal p (sortByVal ps)

/-- Sum of `Total de Técnicos` over the rows of maintaining entity `k`. -/
def somaTecnicos (d : List Row) (k : Cell) : Int :=
  ((d.filter (fun r => decide (r.mantenedora = k))).map (fun r => r.totalTecnicos)).sum

/-- The aggregation `tec_por_mantenedora`: group the filtered subset by
maintaining entity, sum the technical-staff column within each group, and
sort ascending by that sum. -/
def tec_por_mantenedora (d : List Row) : List (Cell × Int) :=
  sortByVal (((d.map (fun r => r.mantenedora)).dedup).map (fun k => (k, somaTecnicos d k)))

/-- The aggregation `ies_por_municipio`: distinct institutions per municipality. -/
def ies_por_municipio (d : List Row) : List (Cell × Nat) :=
  ((d.map (fun r => r.municipio)).dedup).map
    (fun k => (k, nunique ((d.filter (fun r => decide (r.municipio = k))).map (fun r => r.nomeIES))))

/-- The aggregation `cat_admin_counts`: institutions per administrative category. -/
def cat_admin_counts (d : List Row) : List (Cell × Nat) :=
  ((d.map (fun r => r.categoriaAdministrativa)).dedup).map
    (fun k => (k, (d.filter (fun r => decide (r.categoriaAdministrativa = k))).length))

/-- The aggregation `docentes_resumo_filtrado`: summed faculty per degree-level column. -/
def docentes_resumo (d : List Row) : List (String × Int) :=
  [("Docentes Sem Graduação", (d.map (fun r => r.docSemGrad)).sum),
   ("Docentes com Graduação", (d.map (fun r => r.docGrad)).sum),
   ("Docentes com Especialização", (d.map (fun r => r.docEsp)).sum),
   ("Docentes com Mestrado", (d.map (fun r => r.docMest)).sum),
   ("Docentes com Doutorado", (d.map (fun r => r.docDout)).sum)]

/-- The scalar metrics of the `Métricas Chave` block. -/
structure Metricas where
  total_ies : Nat
  total_docentes_ex : Int
  total_municipios_c_ies : Nat
  total_livros_eletronicos : Int
deriving DecidableEq

/-- The aggregated views rendered below the metrics. -/
structure Paineis where
  iesPorMunicipio : List (Cell × Nat)
  tecPorMantenedora : List (Cell × Int)
  catAdminCounts : List (Cell × Nat)
  docentesResumo : List (String × Int)
deriving DecidableEq

/-- What the content area shows: either the "no records" notice, or the
metrics together with the aggregated views. -/
inductive Conteudo where
  | semRegistros
  | painel (m : Metricas) (p : Paineis)
deriving DecidableEq

/-- The main block below the filters: when `df_filtrado` is empty an
informational notice, otherwise the metrics and charts. -/
def render (dff : List Row) : Conteudo :=
  if dff.isEmpty then Conteudo.semRegistros
  else
    Conteudo.painel
      { total_ies := total_ies dff,
        total_docentes_ex := (dff.map (fun r => r.totalDocentes)).sum,
        total_municipios_c_ies := nunique (dff.map (fun r => r.municipio)),
        total_livros_eletronicos := (dff.map (fun r => r.totalLivros)).sum }
      { iesPorMunicipio := ies_por_municipio dff,
        tecPorMantenedora := tec_por_mantenedora dff,
        catAdminCounts := cat_admin_counts dff,
        docentesResumo := docentes_resumo dff }

/-!
## Lemmas about the row operations of the loader
-/

theorem getCol_setCol_same (r : RowA) (k : String) (v : Cell) :
    getCol (setCol r k v) k = v := by
  simp [getCol, setCol, List.lookup_cons]

theorem getCol_setCol_ne (r : RowA) (k k' : String) (v : Cell) (h : k' ≠ k) :
    getCol (setCol r k' v) k = getCol r k := by
  simp [getCol, setCol, List.lookup_cons, beq_false_of_ne (Ne.symm h)]

theorem getCol_coerceStep_ne (hdr : List String) (r : RowA) (c k : String) (h : c ≠ k) :
    getCol (coerceStep hdr r c) k = getCol r k := by
  unfold coerceStep
  split
  · exact getCol_setCol_ne _ _ _ _ h
  · rfl

theorem getCol_catApply_ne (hdr : List String) (c : String) (m : List (Int × String))
    (r : RowA) (k : String) (h : c ≠ k) :
    getCol (catApply hdr c m r) k = getCol r k := by
  unfold catApply
  split
  · exact getCol_setCol_ne _ _ _ _ h
  · rfl

theorem getCol_catApply_self (hdr : List String) (c : String) (m : List (Int × String))
    (r : RowA) :
    getCol (catApply hdr c m r) c =
      if c ∈ hdr then fillna (mapCode m (getCol r c)) (Cell.str "Não Definido")
      else getCol r c := by
  unfold catApply
  split <;> simp [getCol_setCol_same, *]

theorem getCol_foldl_coerce_notMem (hdr : List String) (cols : List String) (r : RowA)
    (k : String) (h : k ∉ cols) :
    getCol (cols.foldl (coerceStep hdr) r) k = getCol r k := by
  induction cols generalizing r with
  | nil => rfl
  | cons c cs ih =>
      simp only [List.foldl_cons]
      rw [ih _ (fun hm => h (List.mem_cons_of_mem _ hm)),
        getCol_coerceStep_ne _ _ _ _
          (fun hc => h (by rw [← hc]; exact List.mem_cons_self _ _))]

theorem getCol_foldl_coerce_mem (hdr : List String) (cols : List String) (r : RowA)
    (c : String) (hn : cols.Nodup) (hc : c ∈ cols) :
    getCol (cols.foldl (coerceStep hdr) r) c =
      if c ∈ hdr then fillna (toNumeric (getCol r c)) (Cell.int 0)
      else getCol r c := by
  induction cols generalizing r with
  | nil => cases hc
  | cons d ds ih =>
      rcases List.mem_cons.mp hc with rfl | hmem
      · have hnot : c ∉ ds := (List.nodup_cons.mp hn).1
        simp only [List.foldl_cons]
        rw [getCol_foldl_coerce_notMem _ _ _ _ hnot]
        unfold coerceStep
        split
        · rw [getCol_setCol_same]
        · rfl
      · have hd : d ≠ c := by
          rintro rfl
          exact (List.nodup_cons.mp hn).1 hmem
        simp only [List.foldl_cons]
        rw [ih _ (List.nodup_cons.mp hn).2 hmem,
          getCol_coerceStep_ne _ _ _ _ hd]

theorem normalizeRow_capital (hdr : List String) (r : RowA) :
    getCol (normalizeRow hdr r) "É Capital?" =
      if "É Capital?" ∈ hdr then
        fillna (mapCode capital_map (getCol (renameRow r) "É Capital?"))
          (Cell.str "Não Definido")
      else getCol (renameRow r) "É Capital?" := by
  simp only [normalizeRow]
  rw [getCol_catApply_ne _ _ _ _ _ (by decide),
    getCol_catApply_ne _ _ _ _ _ (by decide),
    getCol_catApply_ne _ _ _ _ _ (by decide),
    getCol_catApply_self,
    getCol_foldl_coerce_notMem _ _ _ _ (by decide)]

theorem normalizeRow_organizacao (hdr : List String) (r : RowA) :
    getCol (normalizeRow hdr r) "Organização Acadêmica" =
      if "Organização Acadêmica" ∈ hdr then
        fillna (mapCode organizacao_map (getCol (renameRow r) "Organização Acadêmica"))
          (Cell.str "Não Definido")
      else getCol (renameRow r) "Organização Acadêmica" := by
  simp only [normalizeRow]
  rw [getCol_catApply_ne _ _ _ _ _ (by decide),
    getCol_catApply_ne _ _ _ _ _ (by decide),
    getCol_catApply_self,
    getCol_catApply_ne _ _ _ _ _ (by decide),
    getCol_foldl_coerce_notMem _ _ _ _ (by decide)]

theorem normalizeRow_rede (hdr : List String) (r : RowA) :
    getCol (normalizeRow hdr r) "Tipo de Rede" =
      if "Tipo de Rede" ∈ hdr then
        fillna (mapCode rede_map (getCol (renameRow r) "Tipo de Rede"))
          (Cell.str "Não Definido")
      else getCol (renameRow r) "Tipo de Rede" := by
  simp only [normalizeRow]
  rw [getCol_catApply_ne _ _ _ _ _ (by decide),
    getCol_catApply_self,
    getCol_catApply_ne _ _ _ _ _ (by decide),
    getCol_catApply_ne _ _ _ _ _ (by decide),
    getCol_foldl_coerce_notMem _ _ _ _ (by decide)]

theorem normalizeRow_categoria (hdr : List String) (r : RowA) :
    getCol (normalizeRow hdr r) "Categoria Administrativa" =
      if "Categoria Administrativa" ∈ hdr then
        fillna (mapCode categoria_map (getCol (renameRow r) "Categoria Administrativa"))
          (Cell.str "Não Definido")
      else getCol (renameRow r) "Categoria Administrativa" := by
  simp only [normalizeRow]
  rw [getCol_catApply_self,
    getCol_catApply_ne _ _ _ _ _ (by decide),
    getCol_catApply_ne _ _ _ _ _ (by decide),
    getCol_catApply_ne _ _ _ _ _ (by decide),
    getCol_foldl_coerce_notMem _ _ _ _ (by decide)]

theorem normalizeRow_numeric (hdr : List String) (r : RowA) (c : String)
    (hc : c ∈ numeric_cols_to_fill) :
    getCol (normalizeRow hdr r) c =
      if c ∈ hdr then fillna (toNumeric (getCol (renameRow r) c)) (Cell.int 0)
      else getCol (renameRow r) c := by
  have hne : ∀ x ∈ numeric_cols_to_fill,
      x ≠ "É Capital?" ∧ x ≠ "Organização Acadêmica" ∧
      x ≠ "Tipo de Rede" ∧ x ≠ "Categoria Administrativa" := by decide
  obtain ⟨h1, h2, h3, h4⟩ := hne c hc
  simp only [normalizeRow]
  rw [getCol_catApply_ne _ _ _ _ _ (Ne.symm h4),
    getCol_catApply_ne _ _ _ _ _ (Ne.symm h3),
    getCol_catApply_ne _ _ _ _ _ (Ne.symm h2),
    getCol_catApply_ne _ _ _ _ _ (Ne.symm h1),
    getCol_foldl_coerce_mem _ _ _ _ (by decide) hc]

/-- The closed label set of a coded column: the labels of its lookup table
plus the "Não Definido" sentinel. -/
def labelSet (m : List (Int × String)) : List Cell :=
  m.map (fun p => Cell.str p.2) ++ [Cell.str "Não Definido"]

theorem lookup_snd_mem {m : List (Int × String)} {n : Int} {l : String}
    (h : m.lookup n = some l) : l ∈ m.map Prod.snd := by
  induction m with
  | nil => simp [List.lookup] at h
  | cons p ps ih =>
      rw [List.lookup_cons] at h
      split at h
      · injection h with h'
        subst h'
        simp
      · exact List.mem_cons_of_mem _ (ih h)

theorem fillna_mapCode_mem (m : List (Int × String)) (c : Cell) :
    fillna (mapCode m c) (Cell.str "Não Definido") ∈ labelSet m := by
  cases c with
  | int n =>
      cases h : List.lookup n m with
      | none => simp [mapCode, h, fillna, labelSet]
      | some l =>
          have hv : fillna (mapCode m (Cell.int n)) (Cell.str "Não Definido") = Cell.str l := by
            simp [mapCode, h, fillna]
          rw [hv]
          obtain ⟨p, hp, hpl⟩ := List.mem_map.mp (lookup_snd_mem h)
          exact List.mem_append_left _ (List.mem_map.mpr ⟨p, hp, by rw [hpl]⟩)
  | str s => simp [mapCode, fillna, labelSet]
  | na => simp [mapCode, fillna, labelSet]

theorem required_mem_header {df : DF} (h : missing_cols df = []) :
    ∀ c ∈ required_original_cols, c ∈ df.header := by
  intro c hc
  by_contra hnc
  have hmem : c ∈ missing_cols df :=
    List.mem_filter.mpr ⟨hc, by simpa using hnc⟩
  simp [h] at hmem

/-!
## Example data for concrete scenarios
-/

/-- A well-formed input row: unmapped academic-organization code 7,
public network, 10 faculty members. -/
def exRow : RowA :=
  [("NU_ANO_CENSO", Cell.int 2022), ("CO_MUNICIPIO_IES", Cell.int 530010),
   ("nome_municipio", Cell.str "Brasília"), ("IN_CAPITAL_IES", Cell.int 1),
   ("TP_ORGANIZACAO_ACADEMICA", Cell.int 7), ("TP_REDE", Cell.int 1),
   ("TP_CATEGORIA_ADMINISTRATIVA", Cell.int 1), ("NO_IES", Cell.str "U1"),
   ("SG_IES", Cell.str "U1"), ("QT_DOC_TOTAL", Cell.int 10),
   ("QT_TEC_TOTAL", Cell.int 5), ("NO_MANTENEDORA", Cell.str "M1"),
   ("QT_DOC_EX_SEM_GRAD", Cell.int 0), ("QT_DOC_EX_GRAD", Cell.int 1),
   ("QT_DOC_EX_ESP", Cell.int 2), ("QT_DOC_EX_MEST", Cell.int 3),
   ("QT_DOC_EX_DOUT", Cell.int 4), ("QT_LIVRO_ELETRONICO", Cell.int 100),
   ("QT_DOC_EX_FEMI", Cell.int 6), ("QT_DOC_EX_MASC", Cell.int 4)]

def exDF : DF := { header := required_original_cols, rows := [exRow] }

/-- Same row except for a negative faculty count. -/
def exRowNeg : RowA :=
  ("QT_DOC_TOTAL", Cell.int (-5)) :: exRow

def exDFNeg : DF := { header := required_original_cols, rows := [exRowNeg] }

/-- A header from which `QT_DOC_TOTAL` is absent. -/
def exDFMissing : DF :=
  { header := required_original_cols.erase "QT_DOC_TOTAL", rows := [] }

/-!
## Claims about the loader
-/

/-- C1: after normalization every mapped categorical value equals the
original code pushed through the fixed lookup table of the column with the
"Não Definido" sentinel for unmapped codes, hence belongs to the closed
label set of its column. -/
theorem norm_categoricas_fechadas (df : DF) (h : missing_cols df = []) :
    ∀ r ∈ (carregar_dados (LoadInput.parsed df)).1.rows,
      ∃ r0 ∈ df.rows,
        getCol r "É Capital?"
            = fillna (mapCode capital_map (getCol (renameRow r0) "É Capital?"))
                (Cell.str "Não Definido") ∧
        getCol r "Organização Acadêmica"
            = fillna (mapCode organizacao_map
                  (getCol (renameRow r0) "Organização Acadêmica"))
                (Cell.str "Não Definido") ∧
        getCol r "Tipo de Rede"
            = fillna (mapCode rede_map (getCol (renameRow r0) "Tipo de Rede"))
                (Cell.str "Não Definido") ∧
        getCol r "Categoria Administrativa"
            = fillna (mapCode categoria_map
                  (getCol (renameRow r0) "Categoria Administrativa"))
                (Cell.str "Não Definido") ∧
        getCol r "É Capital?" ∈ labelSet capital_map ∧
        getCol r "Organização Acadêmica" ∈ labelSet organizacao_map ∧
        getCol r "Tipo de Rede" ∈ labelSet rede_map ∧
        getCol r "Categoria Administrativa" ∈ labelSet categoria_map := by
  intro r hr
  have hrows : (carregar_dados (LoadInput.parsed df)).1.rows
      = df.rows.map (normalizeRow (df.header.map renameKey)) := by
    simp [carregar_dados, h, processDF]
  rw [hrows] at hr
  obtain ⟨r0, hr0, rfl⟩ := List.mem_map.mp hr
  refine ⟨r0, hr0, ?_, ?_, ?_, ?_, ?_, ?_, ?_, ?_⟩ <;>
    [rw [normalizeRow_capital, if_pos]; rw [normalizeRow_organizacao, if_pos];
     rw [normalizeRow_rede, if_pos]; rw [normalizeRow_categoria, if_pos];
     skip; skip; skip; skip]
  · exact List.mem_map.mpr ⟨"IN_CAPITAL_IES", required_mem_header h _ (by decide), by decide⟩
  · exact List.mem_map.mpr
      ⟨"TP_ORGANIZACAO_ACADEMICA", required_mem_header h _ (by decide), by decide⟩
  · exact List.mem_map.mpr ⟨"TP_REDE", required_mem_header h _ (by decide), by decide⟩
  · exact List.mem_map.mpr
      ⟨"TP_CATEGORIA_ADMINISTRATIVA", required_mem_header h _ (by decide), by decide⟩
  · rw [normalizeRow_capital, if_pos
      (List.mem_map.mpr ⟨"IN_CAPITAL_IES", required_mem_header h _ (by decide), by decide⟩)]
    exact fillna_mapCode_mem _ _
  · rw [normalizeRow_organizacao, if_pos (List.mem_map.mpr
      ⟨"TP_ORGANIZACAO_ACADEMICA", required_mem_header h _ (by decide), by decide⟩)]
    exact fillna_mapCode_mem _ _
  · rw [normalizeRow_rede, if_pos
      (List.mem_map.mpr ⟨"TP_REDE", required_mem_header h _ (by decide), by decide⟩)]
    exact fillna_mapCode_mem _ _
  · rw [normalizeRow_categoria, if_pos (List.mem_map.mpr
      ⟨"TP_CATEGORIA_ADMINISTRATIVA", required_mem_header h _ (by decide), by decide⟩)]
    exact fillna_mapCode_mem _ _

theorem norm_categoricas_fechadas_witness :
    missing_cols exDF = [] ∧
    (∀ r ∈ (carregar_dados (LoadInput.parsed exDF)).1.rows,
      ∃ r0 ∈ exDF.rows,
        getCol r "É Capital?"
            = fillna (mapCode capital_map (getCol (renameRow r0) "É Capital?"))
                (Cell.str "Não Definido") ∧
        getCol r "Organização Acadêmica"
            = fillna (mapCode organizacao_map
                  (getCol (renameRow r0) "Organização Acadêmica"))
                (Cell.str "Não Definido") ∧
        getCol r "Tipo de Rede"
            = fillna (mapCode rede_map (getCol (renameRow r0) "Tipo de Rede"))
                (Cell.str "Não Definido") ∧
        getCol r "Categoria Administrativa"
            = fillna (mapCode categoria_map
                  (getCol (renameRow r0) "Categoria Administrativa"))
                (Cell.str "Não Definido") ∧
        getCol r "É Capital?" ∈ labelSet capital_map ∧
        getCol r "Organização Acadêmica" ∈ labelSet organizacao_map ∧
        getCol r "Tipo de Rede" ∈ labelSet rede_map ∧
        getCol r "Categoria Administrativa" ∈ labelSet categoria_map) ∧
    (carregar_dados (LoadInput.parsed exDF)).1.rows.map
        (fun r => getCol r "Organização Acadêmica") = [Cell.str "Não Definido"] :=
  ⟨by decide, norm_categoricas_fechadas exDF (by decide), by decide⟩

/-- The cell is a non-negative integer. -/
def cellNonNeg : Cell → Bool
  | Cell.int n => decide (0 ≤ n)
  | _ => false

/-- Every numeric reading of the cell is non-negative (true of the raw
cells of a census table, whose numeric fields are counts). -/
def rawNonNeg (c : Cell) : Prop := ∀ n : Int, toNumeric c = Cell.int n → 0 ≤ n

theorem toNumeric_int_or_na (c : Cell) :
    (∃ n : Int, toNumeric c = Cell.int n) ∨ toNumeric c = Cell.na := by
  cases c with
  | int n => exact Or.inl ⟨n, rfl⟩
  | na => exact Or.inr rfl
  | str s =>
      cases h : s.toInt? with
      | none => right; simp [toNumeric, h]
      | some n => left; exact ⟨n, by simp [toNumeric, h]⟩

theorem getCol_renameRow_cons (q : String × Cell) (qs : List (String × Cell)) (k : String) :
    getCol (renameRow (q :: qs)) k =
      if k == renameKey q.1 then q.2 else getCol (renameRow qs) k := by
  simp only [renameRow, List.map_cons, getCol, List.lookup_cons]
  split
  next heq =>
    rw [if_pos heq]
    rfl
  next heq => rw [if_neg (by simp [heq])]

theorem getCol_renameRow_cases (r : RowA) (k : String) :
    getCol (renameRow r) k = Cell.na ∨ ∃ p ∈ r, getCol (renameRow r) k = p.2 := by
  induction r with
  | nil => exact Or.inl rfl
  | cons q qs ih =>
      rw [getCol_renameRow_cons]
      split
      · exact Or.inr ⟨q, List.mem_cons_self _ _, rfl⟩
      · rcases ih with h1 | ⟨p, hp, h2⟩
        · exact Or.inl h1
        · exact Or.inr ⟨p, List.mem_cons_of_mem _ hp, h2⟩

/-- C2 counterexample: the non-negativity clause of the claim fails.  With source
value `QT_DOC_TOTAL = -5` (all required columns present) the normalized
`Total de Docentes` is `-5`: a negative value survives normalization. -/
theorem coercao_nao_negativa_contraexemplo :
    ¬ (∀ r ∈ (carregar_dados (LoadInput.parsed exDFNeg)).1.rows,
        ∀ c ∈ numeric_cols_to_fill, cellNonNeg (getCol r c) = true) := by
  decide

/-- C2 (amended): for every row and every designated count column the
normalized value is an integer (never `NaN`); valid numeric source values
pass through unchanged while missing values and non-numeric (unparseable
string) values become zero; and the column is non-negative whenever every
source cell of the row reads non-negative. -/
theorem coercao_numerica (df : DF) (h : missing_cols df = []) :
    ∀ r ∈ (carregar_dados (LoadInput.parsed df)).1.rows,
      ∃ r0 ∈ df.rows, ∀ c ∈ numeric_cols_to_fill,
        (∃ n : Int, getCol r c = Cell.int n) ∧
        (∀ n : Int, getCol (renameRow r0) c = Cell.int n → getCol r c = Cell.int n) ∧
        (getCol (renameRow r0) c = Cell.na → getCol r c = Cell.int 0) ∧
        (∀ s : String, getCol (renameRow r0) c = Cell.str s → s.toInt? = none →
          getCol r c = Cell.int 0) ∧
        ((∀ p ∈ r0, rawNonNeg p.2) → cellNonNeg (getCol r c) = true) := by
  intro r hr
  have hrows : (carregar_dados (LoadInput.parsed df)).1.rows
      = df.rows.map (normalizeRow (df.header.map renameKey)) := by
    simp [carregar_dados, h, processDF]
  rw [hrows] at hr
  obtain ⟨r0, hr0, rfl⟩ := List.mem_map.mp hr
  refine ⟨r0, hr0, ?_⟩
  intro c hc
  have hren : ∀ x ∈ numeric_cols_to_fill, x ∈ required_original_cols.map renameKey := by
    decide
  have hpres : c ∈ df.header.map renameKey := by
    obtain ⟨a, ha, rfl⟩ := List.mem_map.mp (hren c hc)
    exact List.mem_map.mpr ⟨a, required_mem_header h a ha, rfl⟩
  have hval : getCol (normalizeRow (df.header.map renameKey) r0) c
      = fillna (toNumeric (getCol (renameRow r0) c)) (Cell.int 0) := by
    rw [normalizeRow_numeric _ _ _ hc, if_pos hpres]
  refine ⟨?_, ?_, ?_, ?_, ?_⟩
  · rw [hval]
    rcases toNumeric_int_or_na (getCol (renameRow r0) c) with ⟨n, hn⟩ | hn
    · exact ⟨n, by rw [hn]; rfl⟩
    · exact ⟨0, by rw [hn]; rfl⟩
  · intro n hn
    rw [hval, hn]
    rfl
  · intro hn
    rw [hval, hn]
    rfl
  · intro s hs hsn
    rw [hval, hs]
    simp [toNumeric, hsn, fillna]
  · intro hnn
    rw [hval]
    rcases getCol_renameRow_cases r0 c with hna | ⟨p, hp, hpe⟩
    · rw [hna]
      rfl
    · rw [hpe]
      rcases toNumeric_int_or_na p.2 with ⟨n, hn⟩ | hn
      · rw [hn]
        have := hnn p hp n hn
        simp [cellNonNeg, fillna, this]
      · rw [hn]
        rfl

theorem coercao_numerica_witness :
    missing_cols exDF = [] ∧
    (∀ r ∈ (carregar_dados (LoadInput.parsed exDF)).1.rows,
      ∃ r0 ∈ exDF.rows, ∀ c ∈ numeric_cols_to_fill,
        (∃ n : Int, getCol r c = Cell.int n) ∧
        (∀ n : Int, getCol (renameRow r0) c = Cell.int n → getCol r c = Cell.int n) ∧
        (getCol (renameRow r0) c = Cell.na → getCol r c = Cell.int 0) ∧
        (∀ s : String, getCol (renameRow r0) c = Cell.str s → s.toInt? = none →
          getCol r c = Cell.int 0) ∧
        ((∀ p ∈ r0, rawNonNeg p.2) → cellNonNeg (getCol r c) = true)) ∧
    (carregar_dados (LoadInput.parsed exDF)).1.rows.map
        (fun r => getCol r "Total de Docentes") = [Cell.int 10] ∧
    (carregar_dados (LoadInput.parsed exDF)).1.rows.map
        (fun r => getCol r "Tipo de Rede") = [Cell.str "Pública"] :=
  ⟨by decide, coercao_numerica exDF (by decide), by decide, by decide⟩

/-- C3: when required source columns are absent from the header, the loader
returns the empty table and emits exactly one consolidated diagnostic whose
payload is exactly the list of missing names. -/
theorem colunas_faltantes_diagnostico (df : DF) (h : missing_cols df ≠ []) :
    carregar_dados (LoadInput.parsed df)
        = (emptyDF, [Diag.missingColumns (missing_cols df)]) ∧
    ∀ c, (c ∈ required_original_cols ∧ c ∉ df.header) ↔ c ∈ missing_cols df := by
  constructor
  · have hne : (missing_cols df).isEmpty = false := by
      simpa [List.isEmpty_iff] using h
    simp [carregar_dados, hne]
  · intro c
    simp [missing_cols, List.mem_filter]

theorem colunas_faltantes_diagnostico_witness :
    missing_cols exDFMissing ≠ [] ∧
    (carregar_dados (LoadInput.parsed exDFMissing)
        = (emptyDF, [Diag.missingColumns (missing_cols exDFMissing)]) ∧
      ∀ c, (c ∈ required_original_cols ∧ c ∉ exDFMissing.header)
          ↔ c ∈ missing_cols exDFMissing) ∧
    missing_cols exDFMissing = ["QT_DOC_TOTAL"] :=
  ⟨by decide, colunas_faltantes_diagnostico exDFMissing (by decide), by decide⟩

/-- C9: the loader is total — every input yields a table.  A missing file
or a parse error yields the empty table plus one diagnostic; a parsed file
either loads cleanly with no diagnostic or, when required columns are
missing, yields the empty table plus one diagnostic. -/
theorem carregar_nunca_lanca :
    carregar_dados LoadInput.noFile = (emptyDF, [Diag.fileNotFound]) ∧
    (∀ m, carregar_dados (LoadInput.parseError m) = (emptyDF, [Diag.unexpected m])) ∧
    (∀ df, carregar_dados (LoadInput.parsed df) = (processDF df, [])
        ∨ carregar_dados (LoadInput.parsed df)
            = (emptyDF, [Diag.missingColumns (missing_cols df)])) := by
  refine ⟨rfl, fun m => rfl, fun df => ?_⟩
  by_cases h : (missing_cols df).isEmpty
  · left
    simp [carregar_dados, h]
  · right
    simp only [Bool.not_eq_true] at h
    simp [carregar_dados, h]

/-!
## Lemmas about the filter stage
-/

theorem df_filtrado_eq_filter (df : List Row) (s : Selecao) :
    df_filtrado df s = df.filter (selPred s) := by
  obtain ⟨ano, org, rede, mun, inst⟩ := s
  unfold df_filtrado selPred
  cases ano <;>
    by_cases h2 : org ≠ Cell.str "Todas" <;>
    by_cases h3 : rede ≠ Cell.str "Todas" <;>
    by_cases h4 : mun ≠ Cell.str "Todos" <;>
    by_cases h5 : inst ≠ Cell.str "Todas" <;>
    simp [h2, h3, h4, h5, List.filter_filter, Bool.and_comm, Bool.and_left_comm,
      Bool.and_assoc]

/-- C4: the filtered subset equals a single filter by the conjunction of
the optional equality predicates; an absent selection constrains nothing. -/
theorem filtro_conjuncao (df : List Row) (s : Selecao) :
    df_filtrado df s = df.filter (selPred s) :=
  df_filtrado_eq_filter df s

/-- C7: filtering an already-filtered subset by the same selection yields
the identical subset. -/
theorem filtro_idempotente (df : List Row) (s : Selecao) :
    df_filtrado (df_filtrado df s) s = df_filtrado df s := by
  simp [df_filtrado_eq_filter, List.filter_filter, Bool.and_self]

/-- C8: the distinct-institution metric on the unfiltered table is at least
the same metric on any filtered subset. -/
theorem total_ies_monotono (df : List Row) (s : Selecao) :
    total_ies (df_filtrado df s) ≤ total_ies df := by
  have hsub : df_filtrado df s ⊆ df := by
    rw [df_filtrado_eq_filter]
    intro x hx
    exact (List.mem_filter.mp hx).1
  unfold total_ies nunique
  rw [← List.card_toFinset, ← List.card_toFinset]
  apply Finset.card_le_card
  intro a ha
  rw [List.mem_toFinset] at ha ⊢
  obtain ⟨r, hr, rfl⟩ := List.mem_map.mp ha
  exact List.mem_map.mpr ⟨r, hsub hr, rfl⟩

/-- C5: the content area shows the "no records" notice exactly when the
filtered subset is empty; in that state no metrics and no aggregated views
are produced (the `painel` constructor alone carries them). -/
theorem vazio_sem_registros (dff : List Row) :
    render dff = Conteudo.semRegistros ↔ dff = [] := by
  unfold render
  split
  next h =>
    rw [List.isEmpty_iff] at h
    simp [h]
  next h =>
    rw [List.isEmpty_iff] at h
    simp [h]

/-!
## Lemmas about the technical-staff aggregation
-/

theorem insertByVal_perm (p : Cell × Int) (l : List (Cell × Int)) :
    List.Perm (insertByVal p l) (p :: l) := by
  induction l with
  | nil => exact List.Perm.refl _
  | cons x xs ih =>
      unfold insertByVal
      split
      · exact List.Perm.refl _
      · exact (ih.cons x).trans (List.Perm.swap p x xs)

theorem sortByVal_perm (l : List (Cell × Int)) : List.Perm (sortByVal l) l := by
  induction l with
  | nil => exact List.Perm.refl _
  | cons x xs ih => exact (insertByVal_perm x (sortByVal xs)).trans (ih.cons x)

theorem sorted_insertByVal (p : Cell × Int) (l : List (Cell × Int))
    (h : l.Pairwise (fun a b : Cell × Int => a.2 ≤ b.2)) :
    (insertByVal p l).Pairwise (fun a b : Cell × Int => a.2 ≤ b.2) := by
  induction l with
  | nil => simp [insertByVal]
  | cons x xs ih =>
      rw [List.pairwise_cons] at h
      unfold insertByVal
      split
      next hle =>
        rw [List.pairwise_cons]
        refine ⟨?_, List.pairwise_cons.mpr h⟩
        intro q hq
        rcases List.mem_cons.mp hq with rfl | hq'
        · exact hle
        · exact le_trans hle (h.1 q hq')
      next hgt =>
        rw [List.pairwise_cons]
        refine ⟨?_, ih h.2⟩
        intro q hq
        have hq' := (insertByVal_perm p xs).mem_iff.mp hq
        rcases List.mem_cons.mp hq' with rfl | hq''
        · exact le_of_not_le hgt
        · exact h.1 q hq''

theorem sorted_sortByVal (l : List (Cell × Int)) :
    (sortByVal l).Pairwise (fun a b : Cell × Int => a.2 ≤ b.2) := by
  induction l with
  | nil => simp [sortByVal]
  | cons x xs ih => exact sorted_insertByVal x (sortByVal xs) ih

/-!
## Example rows of the normalized table
-/

def exR1 : Row :=
  { anoCenso := Cell.int 2022, municipio := Cell.str "Brasília",
    eCapital := Cell.str "Sim", organizacaoAcademica := Cell.str "Universidade",
    tipoRede := Cell.str "Pública",
    categoriaAdministrativa := Cell.str "Pública Federal",
    mantenedora := Cell.str "X", nomeIES := Cell.str "U1",
    siglaIES := Cell.str "U1", totalDocentes := 10, totalTecnicos := 5,
    docSemGrad := 0, docGrad := 1, docEsp := 2, docMest := 3, docDout := 4,
    totalLivros := 100, docFem := 6, docMasc := 4 }

/-- A second institution of the same maintaining entity `X`. -/
def exR2 : Row :=
  { exR1 with
    nomeIES := Cell.str "U2"
    siglaIES := Cell.str "U2"
    totalTecnicos := 7 }

def exSel : Selecao :=
  { ano_sel := some (Cell.int 2022), organizacao_sel := Cell.str "Todas",
    tipo_rede_sel := Cell.str "Todas", municipio_sel := Cell.str "Todos",
    instituicao_sel := Cell.str "U1" }

/-- C6: the technical-staff aggregation is sorted ascending by the summed
value, its entries are exactly the distinct maintaining entities paired
with the sum of `Total de Técnicos` over their rows, and two rows sharing
`Mantenedora = "X"` with counts 5 and 7 yield `X ↦ 12`. -/
theorem tec_por_mantenedora_spec :
    (∀ d : List Row,
      (tec_por_mantenedora d).Pairwise (fun a b : Cell × Int => a.2 ≤ b.2) ∧
      ∀ k v, (k, v) ∈ tec_por_mantenedora d
          ↔ k ∈ d.map (fun r => r.mantenedora) ∧ v = somaTecnicos d k) ∧
    tec_por_mantenedora [exR1, exR2] = [(Cell.str "X", 12)] := by
  refine ⟨fun d => ⟨sorted_sortByVal _, fun k v => ?_⟩, by decide⟩
  unfold tec_por_mantenedora
  rw [(sortByVal_perm _).mem_iff]
  constructor
  · intro h
    obtain ⟨k', hk', hkv⟩ := List.mem_map.mp h
    rw [Prod.mk.injEq] at hkv
    obtain ⟨rfl, rfl⟩ := hkv
    exact ⟨List.mem_dedup.mp hk', rfl⟩
  · intro hkv
    exact List.mem_map.mpr ⟨k, List.mem_dedup.mpr hkv.1, by rw [hkv.2]⟩

theorem dedup_length_eq_one_of_all_eq {l : List Cell} {a : Cell}
    (hall : ∀ c ∈ l, c = a) (hne : l ≠ []) : l.dedup.length = 1 := by
  have ha : a ∈ l.dedup := by
    rw [List.mem_dedup]
    obtain ⟨x, hx⟩ := List.exists_mem_of_ne_nil l hne
    rw [← hall x hx]
    exact hx
  have halld : ∀ c ∈ l.dedup, c = a := fun c hc => hall c (List.mem_dedup.mp hc)
  have hnodup := List.nodup_dedup l
  cases hd : l.dedup with
  | nil =>
      rw [hd] at ha
      cases ha
  | cons x xs =>
      cases hxs : xs with
      | nil => rfl
      | cons y ys =>
          rw [hd, hxs] at halld hnodup
          have hx := halld x (List.mem_cons_self _ _)
          have hy := halld y (List.mem_cons_of_mem _ (List.mem_cons_self _ _))
          rw [List.nodup_cons] at hnodup
          exact absurd (show x ∈ y :: ys by
            rw [hx, ← hy]
            exact List.mem_cons_self _ _) hnodup.1

/-- C10: when a specific institution name is selected (not the sentinel)
and the filtered subset is non-empty, the distinct-institution metric of
the filtered subset is exactly 1. -/
theorem instituicao_unica (df : List Row) (s : Selecao)
    (hsel : s.instituicao_sel ≠ Cell.str "Todas")
    (hne : df_filtrado df s ≠ []) :
    total_ies (df_filtrado df s) = 1 := by
  have hall : ∀ r ∈ df_filtrado df s, r.nomeIES = s.instituicao_sel := by
    intro r hr
    rw [df_filtrado_eq_filter] at hr
    have h2 := (List.mem_filter.mp hr).2
    simp only [selPred, Bool.and_eq_true] at h2
    have h3 := h2.2
    rw [if_pos hsel] at h3
    exact of_decide_eq_true h3
  unfold total_ies nunique
  apply dedup_length_eq_one_of_all_eq (a := s.instituicao_sel)
  · intro c hc
    obtain ⟨r, hr, rfl⟩ := List.mem_map.mp hc
    exact hall r hr
  · simpa using hne

theorem instituicao_unica_witness :
    exSel.instituicao_sel ≠ Cell.str "Todas" ∧
    df_filtrado [exR1, exR2] exSel ≠ [] ∧
    total_ies (df_filtrado [exR1, exR2] exSel) = 1 :=
  ⟨by decide, by decide, instituicao_unica [exR1, exR2] exSel (by decide) (by decide)⟩
